import Mathlib

/-!
# Verification of the backlog-mcp-server routing/dispatch layer

Shallow embedding of the TypeScript sources under `src/`:

* `src/services/backlog-client.ts` (latest revision): the HTTP request
  construction of `BacklogClient` — modelled as pure functions from the
  operation's parameters to the `HttpRequest` the client would issue.
* `src/index.ts` (latest revision, lines 1153-1426): the `CallToolRequestSchema`
  handler — the tool dispatcher with its soft-error convention.
* `src/index.ts` (middle revision, lines 467-580): the
  `ReadResourceRequestSchema` handler — the resource router (dropped from the
  latest revision, which exposes only tools and prompts).
* `src/index.ts` (middle revision, lines 595-649): the `search_mcp_issues`
  prompt aggregation over `Promise.all`.

JavaScript runtime values that flow through the handlers are modelled by the
`Json` inductive (JS `undefined` is `Json.undefined`; JS numbers that appear here
are integers or `NaN`, modelled by `JsNum`).  Backend calls are modelled by a
`Backend` record of `Except`-valued operations (the `String` error being the
thrown error's `message`), and each handler also records the list of backend
operations it performed, so that "never contacts the backend" is a statement
about that list.
-/

/-- A JavaScript number as it appears in this codebase: an integer or `NaN`
(`NaN` arises only from `parseInt` on a non-numeric string). -/
inductive JsNum where
  | nan : JsNum
  | int : Int → JsNum
deriving DecidableEq, Repr

/-- JavaScript truthiness of a number: `0` and `NaN` are falsy. -/
def JsNum.truthy : JsNum → Bool
  | .nan => false
  | .int n => n != 0

/-- JS `String(n)` / template-literal rendering of a number. -/
def JsNum.render : JsNum → String
  | .nan => "NaN"
  | .int n => toString n

/-- JavaScript values exchanged with the handlers (JSON values plus
`undefined`). -/
inductive Json where
  | undefined : Json
  | null : Json
  | bool : Bool → Json
  | num : JsNum → Json
  | str : String → Json
  | arr : List Json → Json
  | obj : List (String × Json) → Json

/-- JavaScript truthiness (`undefined`, `null`, `false`, `0`, `NaN`, `""` are
falsy; every object and array is truthy). -/
def Json.truthy : Json → Bool
  | .undefined => false
  | .null => false
  | .bool b => b
  | .num n => n.truthy
  | .str s => s != ""
  | .arr _ => true
  | .obj _ => true

/-- JS member access `v.k`: field lookup on an object, `undefined` when the
field is missing (non-objects do not occur at the access sites we model). -/
def Json.get (v : Json) (k : String) : Json :=
  match v with
  | .obj fs =>
    match fs.find? (fun p => p.1 == k) with
    | some p => p.2
    | none => .undefined
  | _ => .undefined


/-- The JS object literal `{...o, k: v}` (spread followed by one literal key),
on a field list with unique keys: the value at `k` is overwritten in place when
present, appended otherwise. -/
def objSet (fs : List (String × Json)) (k : String) (v : Json) :
    List (String × Json) :=
  if fs.any (fun p => p.1 == k) then
    fs.map (fun p => if p.1 == k then (k, v) else p)
  else
    fs ++ [(k, v)]

/-- JS template-literal / `String(v)` rendering, at the values that occur at
our interpolation sites (numbers and strings; the remaining cases follow the
JS `ToString` conversion of the respective value). -/
def Json.render : Json → String
  | .undefined => "undefined"
  | .null => "null"
  | .bool b => if b then "true" else "false"
  | .num n => n.render
  | .str s => s
  | .arr _ => ""
  | .obj _ => "[object Object]"

/-- The `{total: xs.length, <key>: xs.map(f)}` result shape shared by every
list-returning handler.  The backend's list operations are declared to return
arrays (`BacklogProject[]` etc.); a non-array value would make `.map` throw a
`TypeError` in JS, which we surface as an error message. -/
def listResult (key : String) (f : Json → Json) : Json → Except String Json
  | .arr xs => .ok (.obj [("total", .num (.int xs.length)), (key, .arr (xs.map f))])
  | _ => .error "TypeError: .map is not a function"

/-! ## The backend client, as seen by the handlers

`src/index.ts` calls `backlogClient.<op>(...)`; the client performs one HTTP
round-trip and either returns parsed JSON or throws (axios error / `TypeError`
when the operation does not exist).  We abstract each operation as an
`Except String Json` valued function of the raw JS values the handler passes,
the `String` being the thrown error's message. -/

structure Backend where
  getProjects : Except String Json
  getProject : Json → Except String Json
  getIssues : Json → Except String Json
  getIssue : Json → Except String Json
  getComments : Json → Except String Json
  createIssue : Json → Except String Json
  createComment : Json → Json → Except String Json

/-- A record of one backend-client invocation, used to state which backend
operations a handler performed. -/
inductive BackendCall where
  | getProjects : BackendCall
  | getProject : Json → BackendCall
  | getIssues : Json → BackendCall
  | getIssue : Json → BackendCall
  | getComments : Json → BackendCall
  | createIssue : Json → BackendCall
  | createComment : Json → Json → BackendCall

/-- Outcome of one tool handler: the value it returned or the message of the
error it threw, together with the backend calls it made, in order. -/
structure ToolOut where
  result : Except String Json
  calls : List BackendCall

/-! ## Tool handlers (`src/index.ts`, latest revision, lines 1160-1414)

One definition per `case` of the `switch (request.params.name)`. -/

/-- The field list of an object, as enumerated by the JS spread `{...v}`
(spreading the non-objects that cannot occur here contributes no fields). -/
def Json.fields : Json → List (String × Json)
  | .obj fs => fs
  | _ => []

/-- A `{name, arguments: {<key>: <value>}}` tool suggestion. -/
def toolSuggestion (name key : String) (v : Json) : Json :=
  .obj [("name", .str name), ("arguments", .obj [(key, v)])]

/-- The `create_issue` fill-in template suggestion
(index.ts:1184-1192 and 1221-1229). -/
def createIssueTemplate (projectId : Json) : Json :=
  .obj [("name", .str "create_issue"),
        ("template", .obj [
          ("projectId", projectId),
          ("summary", .str ""),
          ("issueTypeId", .num (.int 0)),
          ("priorityId", .num (.int 2))])]

/-- The `create_issue_comment` fill-in template suggestion. -/
def commentTemplate (issueId : Json) : Json :=
  .obj [("name", .str "create_issue_comment"),
        ("template", .obj [("issueId", issueId), ("content", .str "")])]

/-- `case "list_projects"` (index.ts:1161-1199). -/
def handleListProjects (b : Backend) (_args : Json) : ToolOut :=
  match b.getProjects with
  | .error e => ⟨.error e, [.getProjects]⟩
  | .ok projects =>
    ⟨listResult "projects" (fun project =>
      .obj (objSet project.fields "_links" (.obj [("tools", .obj [
        ("get_project_details",
          toolSuggestion "get_project_details" "projectIdOrKey"
            (.str (project.get "id").render)),
        ("get_project_issues",
          toolSuggestion "get_project_issues" "projectId" (project.get "id")),
        ("create_issue", createIssueTemplate (project.get "id"))])]))) projects,
     [.getProjects]⟩

/-- `case "get_project_details"` (index.ts:1201-1235). -/
def handleGetProjectDetails (b : Backend) (args : Json) : ToolOut :=
  let v := args.get "projectIdOrKey"
  if !v.truthy then
    ⟨.error "Missing required argument: projectIdOrKey", []⟩
  else
    match b.getProject v with
    | .error e => ⟨.error e, [.getProject v]⟩
    | .ok project =>
      ⟨.ok (.obj (objSet project.fields "_links" (.obj [("tools", .obj [
        ("get_project_issues",
          toolSuggestion "get_project_issues" "projectId" (project.get "id")),
        ("create_issue", createIssueTemplate (project.get "id"))])]))),
       [.getProject v]⟩

/-- The per-issue `_links.tools` bundle shared by `get_project_issues` and
`create_issue` (index.ts:1251-1273 and 1357-1379). -/
def issueToolsLinks (issue : Json) : Json :=
  .obj [("tools", .obj [
    ("get_issue_details",
      toolSuggestion "get_issue_details" "issueIdOrKey"
        (.str (issue.get "id").render)),
    ("get_issue_comments",
      toolSuggestion "get_issue_comments" "issueId" (issue.get "id")),
    ("create_issue_comment", commentTemplate (issue.get "id"))])]

/-- `case "get_project_issues"` (index.ts:1237-1278). -/
def handleGetProjectIssues (b : Backend) (args : Json) : ToolOut :=
  let v := args.get "projectId"
  if !v.truthy then
    ⟨.error "Missing required argument: projectId", []⟩
  else
    match b.getIssues v with
    | .error e => ⟨.error e, [.getIssues v]⟩
    | .ok issues =>
      ⟨listResult "issues" (fun issue =>
        .obj (objSet issue.fields "_links" (issueToolsLinks issue))) issues,
       [.getIssues v]⟩

/-- `case "get_issue_details"` (index.ts:1280-1312). -/
def handleGetIssueDetails (b : Backend) (args : Json) : ToolOut :=
  let v := args.get "issueIdOrKey"
  if !v.truthy then
    ⟨.error "Missing required argument: issueIdOrKey", []⟩
  else
    match b.getIssue v with
    | .error e => ⟨.error e, [.getIssue v]⟩
    | .ok issue =>
      ⟨.ok (.obj (objSet issue.fields "_links" (.obj [("tools", .obj [
        ("get_issue_comments",
          toolSuggestion "get_issue_comments" "issueId" (issue.get "id")),
        ("create_issue_comment", commentTemplate (issue.get "id"))])]))),
       [.getIssue v]⟩

/-- `case "get_issue_comments"` (index.ts:1314-1343); the suggestion template
is built from `args.issueId`, not from the comment. -/
def handleGetIssueComments (b : Backend) (args : Json) : ToolOut :=
  let v := args.get "issueId"
  if !v.truthy then
    ⟨.error "Missing required argument: issueId", []⟩
  else
    match b.getComments v with
    | .error e => ⟨.error e, [.getComments v]⟩
    | .ok comments =>
      ⟨listResult "comments" (fun comment =>
        .obj (objSet comment.fields "_links"
          (.obj [("tools", .obj [
            ("create_issue_comment", commentTemplate v)])]))) comments,
       [.getComments v]⟩

/-- `case "create_issue"` (index.ts:1345-1383): the four required fields are
tested for falsiness, then the whole `arguments` object is passed to the
client. -/
def handleCreateIssue (b : Backend) (args : Json) : ToolOut :=
  if !(args.get "projectId").truthy || !(args.get "summary").truthy
      || !(args.get "issueTypeId").truthy || !(args.get "priorityId").truthy then
    ⟨.error "Missing required arguments for issue creation", []⟩
  else
    match b.createIssue args with
    | .error e => ⟨.error e, [.createIssue args]⟩
    | .ok issue =>
      ⟨.ok (.obj (objSet issue.fields "_links" (issueToolsLinks issue))),
       [.createIssue args]⟩

/-- `case "create_issue_comment"` (index.ts:1385-1410). -/
def handleCreateIssueComment (b : Backend) (args : Json) : ToolOut :=
  let vId := args.get "issueId"
  let vContent := args.get "content"
  if !vId.truthy || !vContent.truthy then
    ⟨.error "Missing required arguments for comment creation", []⟩
  else
    match b.createComment vId vContent with
    | .error e => ⟨.error e, [.createComment vId vContent]⟩
    | .ok comment =>
      ⟨.ok (.obj (objSet comment.fields "_links"
        (.obj [("tools", .obj [
          ("get_issue_comments",
            toolSuggestion "get_issue_comments" "issueId" vId)])]))),
       [.createComment vId vContent]⟩

/-- The `switch (request.params.name)` of the CallTool handler
(index.ts:1160-1413); a JS `switch` compares the scrutinee by strict equality
against each case label in order, the `default` throwing
`Unknown tool: <name>`. -/
def dispatchTool (b : Backend) (name : String) (args : Json) : ToolOut :=
  if name = "list_projects" then handleListProjects b args
  else if name = "get_project_details" then handleGetProjectDetails b args
  else if name = "get_project_issues" then handleGetProjectIssues b args
  else if name = "get_issue_details" then handleGetIssueDetails b args
  else if name = "get_issue_comments" then handleGetIssueComments b args
  else if name = "create_issue" then handleCreateIssue b args
  else if name = "create_issue_comment" then handleCreateIssueComment b args
  else ⟨.error ("Unknown tool: " ++ name), []⟩

/-- The case labels of the dispatcher's `switch` (also exactly the tool names
declared by the ListTools handler, index.ts:948-1098). -/
def registeredTools : List String :=
  ["list_projects", "get_project_details", "get_project_issues",
   "get_issue_details", "get_issue_comments", "create_issue",
   "create_issue_comment"]

/-- The error-object body `JSON.stringify({error: <message>})` produced by the
CallTool handler's catch block (index.ts:1415-1425). -/
def errObj (msg : String) : Json :=
  .obj [("error", .str msg)]

/-- The full CallTool handler (index.ts:1153-1426): the central
`if (!request.params.arguments) throw "No arguments provided"` check, the
dispatch, and the surrounding `try`/`catch` that converts every thrown error
into a *successful* protocol response whose single text payload is
`{error: <message>}`.  Returns the list of JSON text payloads of the response
together with the backend calls performed. -/
def callToolFull (b : Backend) (name : String) (args : Json) :
    List Json × List BackendCall :=
  if !args.truthy then
    ([errObj "No arguments provided"], [])
  else
    let out := dispatchTool b name args
    match out.result with
    | .ok v => ([v], out.calls)
    | .error e => ([errObj e], out.calls)

/-- The JSON text payloads of the CallTool response. -/
def callTool (b : Backend) (name : String) (args : Json) : List Json :=
  (callToolFull b name args).1

/-! ## Resource router (`src/index.ts`, middle revision, lines 467-580)

The handler does `new URL(request.params.uri).pathname.slice(1).split('/')`.
For a URI of the declared scheme — `backlog:///<path>`, with empty authority
and no query or fragment (spec §6) — the pathname is the `/<path>` suffix, so
the segment list is `<path>` split on `'/'`.  We model `split('/')` by an
explicit character-level splitter and take the path as the characters after
the 11-character prefix `backlog:///`. -/

/-- JS `String.prototype.split` with the single-character separator `'/'`
(`"".split('/')` is `[""]`). -/
def splitSlash : List Char → List (List Char)
  | [] => [[]]
  | c :: rest =>
    if c = '/' then [] :: splitSlash rest
    else
      match splitSlash rest with
      | s :: ss => (c :: s) :: ss
      | [] => [[c]]

/-- The path segments of a `backlog:///...` URI. -/
def uriSegs (uri : String) : List String :=
  (splitSlash (uri.toList.drop 11)).map (fun cs => String.mk cs)


/-- JS `parseInt(s)`: skip leading whitespace, optional sign, then the longest
digit prefix; `NaN` when there is no digit. -/
def jsParseInt (s : String) : JsNum :=
  let t := s.toList.dropWhile (fun c => c = ' ')
  let (sign, u) : Int × List Char :=
    match t with
    | '-' :: r => (-1, r)
    | '+' :: r => (1, r)
    | r => (1, r)
  let digits := u.takeWhile Char.isDigit
  if digits.isEmpty then .nan
  else .int (sign * (digits.foldl (fun n c => n * 10 + (c.toNat - '0'.toNat)) 0 : Nat))


/-- MCP protocol error codes used by this server. -/
inductive ErrorCode where
  | invalidRequest : ErrorCode
  | methodNotFound : ErrorCode
  | internalError : ErrorCode
deriving DecidableEq, Repr

/-- A typed protocol error (`McpError` of the SDK). -/
structure McpError where
  code : ErrorCode
  message : String
deriving DecidableEq, Repr

/-- An error thrown inside the ReadResource `try` block: either a typed
`McpError` (re-thrown unchanged by the catch) or any other JS error, carried
by its message (wrapped into `InternalError` by the catch). -/
inductive RErr where
  | mcp : McpError → RErr
  | js : String → RErr

/-- Lift a backend-client failure (a thrown axios error) into the resource
handler's error channel. -/
def liftB {α : Type} : Except String α → Except RErr α
  | .ok v => .ok v
  | .error e => .error (.js e)

/-- The `_links` of a project payload (index.ts:485-489 and 505-508). -/
def projectLinksJson (id : Json) : Json :=
  .obj [("self", .str ("backlog:///project/" ++ id.render)),
        ("issues", .str ("backlog:///project/" ++ id.render ++ "/issues"))]

/-- The projection of one project in the `backlog:///projects` payload
(index.ts:480-489). -/
def projectSummaryJson (p : Json) : Json :=
  .obj [("id", p.get "id"), ("key", p.get "projectKey"), ("name", p.get "name"),
        ("description", p.get "description"),
        ("_links", projectLinksJson (p.get "id"))]

/-- The `_links` of an issue payload (index.ts:521-525 and 538-542). -/
def issueLinksJson (issue : Json) : Json :=
  .obj [("self", .str ("backlog:///issue/" ++ (issue.get "id").render)),
        ("comments", .str ("backlog:///issue/" ++ (issue.get "id").render ++ "/comments")),
        ("project", .str ("backlog:///project/" ++ (issue.get "projectId").render))]

/-- The projection of one issue in a `backlog:///project/<id>/issues` payload
(index.ts:516-526). -/
def issueSummaryJson (issue : Json) : Json :=
  .obj [("id", issue.get "id"), ("issueKey", issue.get "issueKey"),
        ("summary", issue.get "summary"), ("status", issue.get "status"),
        ("_links", issueLinksJson issue)]

/-- The projection of one comment in a `backlog:///issue/<id>/comments`
payload (index.ts:549-555): the spread comment plus `_links` whose `self` is
`backlog:///issue/<paths[1]>/comment/<comment.id>` — built from the raw second
path segment, not from the comment. -/
def commentWithLinks (seg1 : String) (comment : Json) : Json :=
  .obj (objSet comment.fields "_links"
    (.obj [("self", .str ("backlog:///issue/" ++ seg1 ++ "/comment/"
                          ++ (comment.get "id").render)),
           ("issue", .str ("backlog:///issue/" ++ seg1))]))

/-- The `switch (paths[0])` body of the ReadResource handler
(index.ts:474-560): returns the `content` value, `none` when the switch falls
through with `content` still `undefined`, or the error thrown inside. -/
def readSegs (b : Backend) (paths : List String) : Except RErr (Option Json) :=
  match paths.head? with
  | some "projects" => do
    let projects ← liftB b.getProjects
    let r ← liftB (listResult "projects" projectSummaryJson projects)
    pure (some r)
  | some "project" => do
    let projectId := (paths.getD 1 "")
    if projectId = "" then
      throw (.mcp ⟨.invalidRequest, "Project ID is required"⟩)
    else if paths.length = 2 then do
      let project ← liftB (b.getProject (.str projectId))
      pure (some (.obj (objSet project.fields "_links"
        (projectLinksJson (project.get "id")))))
    else if paths.getD 2 "" = "issues" then do
      let issues ← liftB (b.getIssues (.num (jsParseInt projectId)))
      let r ← liftB (listResult "issues" issueSummaryJson issues)
      pure (some r)
    else
      pure none
  | some "issue" =>
    if paths.length = 2 then do
      let issue ← liftB (b.getIssue (.str (paths.getD 1 "")))
      pure (some (.obj (objSet issue.fields "_links" (issueLinksJson issue))))
    else if paths.getD 2 "" = "comments" then do
      let comments ← liftB (b.getComments (.num (jsParseInt (paths.getD 1 ""))))
      let r ← liftB (listResult "comments"
        (commentWithLinks (paths.getD 1 "")) comments)
      pure (some r)
    else
      pure none
  | _ => pure none

/-- The full ReadResource handler (index.ts:467-580): parse the URI, run the
switch, throw `MethodNotFound` when no content was produced, and apply the
catch block, which re-throws a typed `McpError` unchanged and wraps any other
error into `InternalError "Failed to read resource <uri>"`. -/
def readResource (b : Backend) (uri : String) : Except McpError Json :=
  let paths := uriSegs uri
  match readSegs b paths with
  | .ok (some content) => .ok content
  | .ok none => .error ⟨.methodNotFound, "Resource " ++ uri ++ " not found"⟩
  | .error (.mcp e) => .error e
  | .error (.js _) => .error ⟨.internalError, "Failed to read resource " ++ uri⟩

/-! ## BacklogClient request construction
(`src/services/backlog-client.ts`, latest revision, lines 96-149)

Each operation is modelled as the HTTP request it hands to axios. -/

/-- HTTP methods used by the client. -/
inductive HttpMethod where
  | get : HttpMethod
  | post : HttpMethod
deriving DecidableEq, Repr

/-- The axios call the client issues: method, URL, query parameters (in
insertion order, values already rendered) and optional request body. -/
structure HttpRequest where
  method : HttpMethod
  url : String
  query : List (String × String)
  body : Option Json

namespace BacklogClient

/-- `BacklogConfig` (types/backlog.ts:32-35). -/
structure Config where
  apiKey : String
  spaceId : String

/-- `this.baseUrl` (backlog-client.ts:101). -/
def baseUrl (c : Config) : String :=
  "https://" ++ c.spaceId ++ ".backlog.com/api/v2"

/-- `BacklogClient.request` (backlog-client.ts:105-123): GET requests put
`{apiKey, ...params}` in the query string and carry no body; POST requests
put only `{apiKey}` in the query string and carry `data` as the body. -/
def request (c : Config) (path : String) (params : List (String × String))
    (method : HttpMethod) (data : Option Json) : HttpRequest :=
  { method := method
    url := baseUrl c ++ path
    query := if method = .get then ("apiKey", c.apiKey) :: params
             else [("apiKey", c.apiKey)]
    body := if method = .post then data else none }

/-- `BacklogClient.getIssues` (backlog-client.ts:133-136): the request of
`getIssues(projectId?)`; `none` models calling it with no argument.  The
filter object is `projectId ? { 'projectId[]': projectId } : {}`. -/
def getIssuesRequest (c : Config) (projectId : Option JsNum) : HttpRequest :=
  let params := match projectId with
    | some p => if p.truthy then [("projectId[]", p.render)] else []
    | none => []
  request c "/issues" params .get none

/-- `BacklogClient.createIssue` (backlog-client.ts:146-148):
`request('/issues', {}, 'post', params)`. -/
def createIssueRequest (c : Config) (params : Json) : HttpRequest :=
  request c "/issues" [] .post (some params)

/-- Modelled from the spec: `BacklogClient.createComment`.  The
`create_issue_comment` handler (index.ts:1391) calls
`backlogClient.createComment(args.issueId, args.content)`, but no revision of
`src/services/backlog-client.ts` under `src/` defines this operation; per
spec §4.1 and §6 it is a state-changing `POST /issues/{issueId}/comments`
sending the payload as the request body, with the API key as the query
credential. -/
def createCommentRequest (c : Config) (issueId : JsNum) (content : String) :
    HttpRequest :=
  request c ("/issues/" ++ issueId.render ++ "/comments") [] .post
    (some (.obj [("content", .str content)]))

end BacklogClient

/-! ## The `search_mcp_issues` prompt aggregation
(`src/index.ts`, middle revision, lines 595-649)

The handler fetches all projects, fans out one `getIssues(project.id)` fetch
per project under `Promise.all`, filters each project's issues by the fixed
case-insensitive keyword `mcp`, flattens, and embeds each match as a resource
message between a fixed intro and outro message.

To talk about fetch-resolution order we model `Promise.all` faithfully to
ECMA-262: the fetches complete in an arbitrary order (a permutation of the
task indices), each completion stores its value at *its own index*, and the
joined promise resolves with the slots read in index order.  The per-task
values themselves are a pure function of the backend data (the success path;
a failed fetch rejects the whole aggregation and produces no message list). -/

/-- `BacklogProject` (types/backlog.ts:1-6). -/
structure BacklogProject where
  id : Int
  projectKey : String
  name : String
  description : String
deriving DecidableEq, Repr

/-- `BacklogIssue` (types/backlog.ts:8-18), with the status pair inlined. -/
structure BacklogIssue where
  id : Int
  projectId : Int
  issueKey : String
  summary : String
  description : String
  statusId : Int
  statusName : String
deriving DecidableEq, Repr

/-- JS `String.prototype.includes`: `pat` occurs as a contiguous substring. -/
def hasSub (pat : List Char) : List Char → Bool
  | [] => pat.isEmpty
  | c :: rest => pat.isPrefixOf (c :: rest) || hasSub pat rest

/-- `issue.summary.toLowerCase().includes('mcp')`: per-character ASCII
lowercasing followed by the substring test. -/
def includesMcp (s : String) : Bool :=
  hasSub ['m', 'c', 'p'] (s.data.map Char.toLower)


/-- The filter of index.ts:604-607. -/
def matchesMcp (issue : BacklogIssue) : Bool :=
  includesMcp issue.summary || includesMcp issue.description

/-- `Promise.all(tasks)` observed through a completion order: the tasks
complete in the order given by `order` (for a real run, a permutation of the
task indices), each completion records `(index, value)`, and the joined result
is assembled by reading the recorded value of index `0, 1, ...` in turn. -/
def promiseAll {α : Type} (dflt : α) (tasks : List α) (order : List Nat) :
    List α :=
  let events := order.map (fun i => (i, tasks.getD i dflt))
  (List.range tasks.length).map (fun i =>
    match events.find? (fun p => p.1 == i) with
    | some p => p.2
    | none => dflt)

/-- The embedded resource message for one matched issue (index.ts:613-625,
636-639); the `text` field's `JSON.stringify` payload is kept structured. -/
def issueResourceMessage (issue : BacklogIssue) : Json :=
  .obj [("role", .str "user"),
        ("content", .obj [
          ("type", .str "resource"),
          ("resource", .obj [
            ("uri", .str ("backlog:///issue/" ++ toString issue.id)),
            ("mimeType", .str "application/json"),
            ("text", .obj [
              ("summary", .str issue.summary),
              ("description", .str issue.description),
              ("status", .obj [("id", .num (.int issue.statusId)),
                               ("name", .str issue.statusName)]),
              ("issueKey", .str issue.issueKey)])])])]

/-- The fixed opening message (index.ts:629-635). -/
def searchIntroMessage : Json :=
  .obj [("role", .str "user"),
        ("content", .obj [("type", .str "text"),
          ("text", .str "以下のMCPに関連する課題を分析し、現状と課題を整理してください：")])]

/-- The fixed closing message (index.ts:640-646). -/
def searchOutroMessage : Json :=
  .obj [("role", .str "user"),
        ("content", .obj [("type", .str "text"),
          ("text", .str "上記の課題について、以下の点を整理してください：\n1. 主な課題の分類\n2. 現在の進捗状況\n3. 残っている課題\n4. 次のアクションとして推奨される事項")])]

/-- The message sequence returned by `get("search_mcp_issues")`
(index.ts:600-648) on a successful run: `projects` is the fetched project
list, `issuesOf pid` the issue list the backend returns for project `pid`,
and `order` the order in which the concurrent per-project fetches complete. -/
def searchMcpMessages (projects : List BacklogProject)
    (issuesOf : Int → List BacklogIssue) (order : List Nat) : List Json :=
  let tasks := projects.map (fun p => (issuesOf p.id).filter matchesMcp)
  let mcpIssues := (promiseAll [] tasks order).flatten
  [searchIntroMessage] ++ mcpIssues.map issueResourceMessage
    ++ [searchOutroMessage]

/-! ## Fixtures used by witnesses and counterexamples -/

/-- A backend whose every operation fails (no call site below ever reaches
it). -/
def emptyBackend : Backend :=
  { getProjects := .error "ECONNREFUSED"
    getProject := fun _ => .error "ECONNREFUSED"
    getIssues := fun _ => .error "ECONNREFUSED"
    getIssue := fun _ => .error "ECONNREFUSED"
    getComments := fun _ => .error "ECONNREFUSED"
    createIssue := fun _ => .error "ECONNREFUSED"
    createComment := fun _ _ => .error "ECONNREFUSED" }

/-- The created-issue record echoed by the fixture backend of the spec's
"create then chain" scenario:
`{id:99, projectId:1, issueKey:"DEV-99", summary:"Bug", status:{id:1,name:"Open"}}`. -/
def c2IssueFields : List (String × Json) :=
  [("id", .num (.int 99)), ("projectId", .num (.int 1)),
   ("issueKey", .str "DEV-99"), ("summary", .str "Bug"),
   ("status", .obj [("id", .num (.int 1)), ("name", .str "Open")])]

/-- A fixture backend that echoes `c2IssueFields` on issue creation. -/
def c2Backend : Backend :=
  { emptyBackend with createIssue := fun _ => .ok (.obj c2IssueFields) }

/-- The arguments of the spec scenario:
`{projectId:1, summary:"Bug", issueTypeId:2, priorityId:2}`. -/
def c2Args : Json :=
  .obj [("projectId", .num (.int 1)), ("summary", .str "Bug"),
        ("issueTypeId", .num (.int 2)), ("priorityId", .num (.int 2))]

/-- Arguments for `create_issue` in which exactly the required field
`summary` is absent. -/
def c3Args : Json :=
  .obj [("projectId", .num (.int 1)), ("issueTypeId", .num (.int 2)),
        ("priorityId", .num (.int 2))]

/-- The payload of a successful read (`undefined` on error; used only to
extract fields from payloads proven successful). -/
def okJson : Except McpError Json → Json
  | .ok v => v
  | .error _ => .undefined

/-- JS array indexing `a[i]`. -/
def Json.item (v : Json) (i : Nat) : Json :=
  match v with
  | .arr xs => xs.getD i .undefined
  | _ => .undefined

/-- A backend holding one comment (id 12) on every issue. -/
def c4Backend : Backend :=
  { emptyBackend with getComments := fun _ => .ok (.arr [.obj [
      ("id", .num (.int 12)), ("content", .str "hi"),
      ("created", .str "2024-01-01T00:00:00Z"),
      ("updated", .str "2024-01-01T00:00:00Z")]]) }

/-- The issue record served by the round-trip witness fixture. -/
def c4IssueFields : List (String × Json) :=
  [("id", .num (.int 42)), ("projectId", .num (.int 7)),
   ("issueKey", .str "DEV-42"), ("summary", .str "Bug"),
   ("description", .str "d"),
   ("status", .obj [("id", .num (.int 1)), ("name", .str "Open")])]

/-- A backend serving `c4IssueFields` for every issue fetch. -/
def c4wBackend : Backend :=
  { emptyBackend with getIssue := fun _ => .ok (.obj c4IssueFields) }

/-- Fixture projects for the aggregation claims. -/
def c7Projects : List BacklogProject :=
  [⟨1, "A", "Alpha", "a"⟩, ⟨2, "B", "Beta", "b"⟩]

/-- A matching issue in project 1. -/
def c7Issue1 : BacklogIssue := ⟨11, 1, "A-1", "MCP support", "", 1, "Open"⟩

/-- A matching issue in project 2. -/
def c7Issue2 : BacklogIssue := ⟨22, 2, "B-1", "use mcp here", "", 1, "Open"⟩

/-- Fixture backend data: one matching issue per project. -/
def c7IssuesOf : Int → List BacklogIssue := fun pid =>
  if pid = 1 then [c7Issue1] else if pid = 2 then [c7Issue2] else []

/-! ## Supporting lemmas -/

/-- A truthy field lookup forces the receiver to be an object, hence truthy
itself. -/
theorem Json.truthy_of_get {v : Json} {k : String}
    (h : (v.get k).truthy = true) : v.truthy = true := by
  cases v <;> simp [Json.get, Json.truthy] at h ⊢

/-- `split('/')` of a slash-free string is the singleton of that string. -/
theorem splitSlash_no_slash (l : List Char) (h : '/' ∉ l) :
    splitSlash l = [l] := by
  induction l with
  | nil => rfl
  | cons c rest ih =>
    simp only [List.mem_cons, not_or] at h
    have hc : ¬c = '/' := fun e => h.1 e.symm
    simp [splitSlash, hc, ih h.2]

/-- `split('/')` peels a slash-free prefix before a separator. -/
theorem splitSlash_append_slash (l r : List Char) (h : '/' ∉ l) :
    splitSlash (l ++ '/' :: r) = l :: splitSlash r := by
  induction l with
  | nil => simp [splitSlash]
  | cons c rest ih =>
    simp only [List.mem_cons, not_or] at h
    have hc : ¬c = '/' := fun e => h.1 e.symm
    simp [splitSlash, hc, ih h.2]

/-- Segments of a single-issue URI with a slash-free id. -/
theorem uriSegs_issue (s : String) (hs : '/' ∉ s.data) :
    uriSegs ("backlog:///issue/" ++ s) = ["issue", s] := by
  unfold uriSegs
  rw [show ("backlog:///issue/" ++ s).toList.drop 11
        = ['i', 's', 's', 'u', 'e'] ++ '/' :: s.data from rfl,
      splitSlash_append_slash _ _ (by decide), splitSlash_no_slash _ hs]
  rfl

/-- Segments of a single-project URI with a slash-free id. -/
theorem uriSegs_project (s : String) (hs : '/' ∉ s.data) :
    uriSegs ("backlog:///project/" ++ s) = ["project", s] := by
  unfold uriSegs
  rw [show ("backlog:///project/" ++ s).toList.drop 11
        = ['p', 'r', 'o', 'j', 'e', 'c', 't'] ++ '/' :: s.data from rfl,
      splitSlash_append_slash _ _ (by decide), splitSlash_no_slash _ hs]
  rfl

/-- Segments of a per-comment URI with a slash-free issue id. -/
theorem uriSegs_comment (s c : String) (hs : '/' ∉ s.data) :
    uriSegs ("backlog:///issue/" ++ s ++ "/comment/" ++ c)
      = "issue" :: s :: "comment" :: (splitSlash c.data).map (fun cs => String.mk cs) := by
  unfold uriSegs
  rw [show ("backlog:///issue/" ++ s ++ "/comment/" ++ c).toList.drop 11
        = ['i', 's', 's', 'u', 'e'] ++ '/'
          :: (s.data ++ '/' :: (['c', 'o', 'm', 'm', 'e', 'n', 't'] ++ '/' :: c.data)) from ?_,
      splitSlash_append_slash _ _ (by decide),
      splitSlash_append_slash _ _ hs,
      splitSlash_append_slash _ _ (by decide)]
  · rfl
  · rw [show ("backlog:///issue/" ++ s ++ "/comment/" ++ c)
          = "backlog:///issue/" ++ (s ++ ("/comment/" ++ c)) by
        simp [String.append_assoc]]
    rfl

/-- In the completion-event list, the first event for index `i` carries the
value of task `i`, whichever position `i` completes at. -/
theorem find?_event (g : Nat → α) (order : List Nat) (i : Nat)
    (h : i ∈ order) :
    (order.map (fun j => (j, g j))).find? (fun p => p.1 == i) = some (i, g i) := by
  induction order with
  | nil => cases h
  | cons j rest ih =>
    by_cases hj : j = i
    · subst hj; simp [List.find?]
    · have hi : i ∈ rest := by
        cases List.mem_cons.mp h with
        | inl e => exact absurd e.symm hj
        | inr m => exact m
      have hb : (j == i) = false := beq_eq_false_iff_ne.mpr hj
      rw [List.map_cons, List.find?_cons_of_neg _ (by simp [hb])]
      exact ih hi

/-- Reading every slot of a list through `getD` reproduces the list. -/
theorem getD_range_map (l : List α) (d : α) :
    (List.range l.length).map (fun i => l.getD i d) = l := by
  induction l with
  | nil => rfl
  | cons a t ih =>
    rw [List.length_cons, List.range_succ_eq_map, List.map_cons, List.map_map,
        List.getD_cons_zero]
    have hstep : ((fun i => (a :: t).getD i d) ∘ Nat.succ)
        = (fun i => t.getD i d) := rfl
    rw [hstep, ih]

/-- `Promise.all` joins to the task values in task order whenever every task
completes, regardless of the completion order. -/
theorem promiseAll_perm (dflt : α) (tasks : List α) (order : List Nat)
    (h : order.Perm (List.range tasks.length)) :
    promiseAll dflt tasks order = tasks := by
  unfold promiseAll
  have hmem : ∀ i ∈ List.range tasks.length, i ∈ order :=
    fun i hi => h.symm.subset hi
  calc (List.range tasks.length).map (fun i =>
          match (order.map (fun j => (j, tasks.getD j dflt))).find?
              (fun p => p.1 == i) with
          | some p => p.2
          | none => dflt)
      = (List.range tasks.length).map (fun i => tasks.getD i dflt) := by
        apply List.map_congr_left
        intro i hi
        rw [find?_event (fun j => tasks.getD j dflt) order i (hmem i hi)]
    _ = tasks := getD_range_map tasks dflt

/-! ## Claims -/

/-- **C1.** For every tool invocation (with arguments provided, which is the
dispatcher's precondition checked before name resolution) whose name does not
match a registered tool, the CallTool handler does not propagate a
protocol-level error — `callToolFull` is total, every throw being converted by
the catch block into a successful response — and the response's single text
payload is the JSON object `{error: "Unknown tool: <name>"}` for that exact
name, with no backend call made. -/
theorem C1_unknown_tool_soft_json_error (b : Backend) (name : String)
    (args : Json) (hargs : args.truthy = true)
    (hname : name ∉ registeredTools) :
    callToolFull b name args = ([errObj ("Unknown tool: " ++ name)], []) := by
  simp only [registeredTools, List.mem_cons, List.mem_singleton, not_or,
    List.not_mem_nil, not_false_iff, and_true] at hname
  obtain ⟨h1, h2, h3, h4, h5, h6, h7⟩ := hname
  simp [callToolFull, dispatchTool, hargs, h1, h2, h3, h4, h5, h6, h7]

/-- Witness for C1 at the spec's scenario: tool name `"frobnicate"` with
(empty-object) arguments. -/
theorem C1_unknown_tool_soft_json_error_witness :
    (Json.obj []).truthy = true ∧ "frobnicate" ∉ registeredTools ∧
    callToolFull emptyBackend "frobnicate" (.obj [])
      = ([errObj ("Unknown tool: " ++ "frobnicate")], []) :=
  ⟨rfl, by decide,
   C1_unknown_tool_soft_json_error emptyBackend "frobnicate" (.obj [])
     rfl (by decide)⟩

/-- **C2.** For every `create_issue` invocation with `projectId`, `summary`,
`issueTypeId` and `priorityId` present (truthy), given a backend whose
issue-creation returns the fixed record `{...fs}`, the result is that record
extended with a `_links.tools` bundle containing exactly
`get_issue_details` (arguments `{issueIdOrKey: String(issue.id)}`),
`get_issue_comments` (arguments `{issueId: issue.id}`), and
`create_issue_comment` with template `{issueId: issue.id, content: ""}`. -/
theorem C2_create_issue_links (b : Backend) (args : Json)
    (fs : List (String × Json))
    (h1 : (args.get "projectId").truthy = true)
    (h2 : (args.get "summary").truthy = true)
    (h3 : (args.get "issueTypeId").truthy = true)
    (h4 : (args.get "priorityId").truthy = true)
    (hb : b.createIssue args = .ok (.obj fs)) :
    callToolFull b "create_issue" args
      = ([.obj (objSet fs "_links" (issueToolsLinks (.obj fs)))],
         [.createIssue args]) ∧
    issueToolsLinks (.obj fs) = .obj [("tools", .obj [
      ("get_issue_details", toolSuggestion "get_issue_details" "issueIdOrKey"
        (.str ((Json.obj fs).get "id").render)),
      ("get_issue_comments", toolSuggestion "get_issue_comments" "issueId"
        ((Json.obj fs).get "id")),
      ("create_issue_comment", commentTemplate ((Json.obj fs).get "id"))])] ∧
    commentTemplate ((Json.obj fs).get "id")
      = .obj [("name", .str "create_issue_comment"),
              ("template", .obj [("issueId", (Json.obj fs).get "id"),
                                 ("content", .str "")])] := by
  refine ⟨?_, rfl, rfl⟩
  have ht : args.truthy = true := Json.truthy_of_get h1
  simp [callToolFull, dispatchTool, handleCreateIssue, ht, h1, h2, h3, h4, hb,
    Json.fields]

/-- Witness for C2 at the spec's "create then chain" scenario; in particular
the suggested `create_issue_comment` template equals
`{issueId: 99, content: ""}`. -/
theorem C2_create_issue_links_witness :
    ((c2Args.get "projectId").truthy = true ∧
     (c2Args.get "summary").truthy = true ∧
     (c2Args.get "issueTypeId").truthy = true ∧
     (c2Args.get "priorityId").truthy = true ∧
     c2Backend.createIssue c2Args = .ok (.obj c2IssueFields)) ∧
    callToolFull c2Backend "create_issue" c2Args
      = ([.obj (objSet c2IssueFields "_links"
            (issueToolsLinks (.obj c2IssueFields)))],
         [.createIssue c2Args]) ∧
    ((((issueToolsLinks (.obj c2IssueFields)).get "tools").get
        "create_issue_comment").get "template")
      = .obj [("issueId", .num (.int 99)), ("content", .str "")] :=
  ⟨⟨rfl, rfl, rfl, rfl, rfl⟩,
   (C2_create_issue_links c2Backend c2Args c2IssueFields
      rfl rfl rfl rfl rfl).1,
   rfl⟩



/-- **C3, counterexample.**  A `create_issue` invocation missing exactly the
required field `summary` is answered with the soft error
`Missing required arguments for issue creation` — a message that does not
name (contain) `summary` — so the claim "the soft JSON error names that
missing field" fails, even though no backend call is made. -/
theorem C3_cex_generic_message_does_not_name_field :
    callToolFull emptyBackend "create_issue" c3Args
      = ([errObj "Missing required arguments for issue creation"], []) ∧
    hasSub "summary".data "Missing required arguments for issue creation".data
      = false :=
  ⟨rfl, by decide⟩

/-- **C3, amended.**  For every tool invocation missing a required field, the
handler returns a soft JSON error without contacting the backend; for the
single-required-field tools (`get_project_details`, `get_project_issues`,
`get_issue_details`, `get_issue_comments`) the message names the missing
field (`Missing required argument: <field>`), while for the multi-field tools
(`create_issue`, `create_issue_comment`) the message is the generic
`Missing required arguments for issue creation` /
`... for comment creation`, which does not name the field. -/
theorem C3_missing_field_soft_error :
    (∀ (b : Backend) (args : Json), args.truthy = true →
      args.get "projectIdOrKey" = .undefined →
      callToolFull b "get_project_details" args
        = ([errObj "Missing required argument: projectIdOrKey"], [])) ∧
    (∀ (b : Backend) (args : Json), args.truthy = true →
      args.get "projectId" = .undefined →
      callToolFull b "get_project_issues" args
        = ([errObj "Missing required argument: projectId"], [])) ∧
    (∀ (b : Backend) (args : Json), args.truthy = true →
      args.get "issueIdOrKey" = .undefined →
      callToolFull b "get_issue_details" args
        = ([errObj "Missing required argument: issueIdOrKey"], [])) ∧
    (∀ (b : Backend) (args : Json), args.truthy = true →
      args.get "issueId" = .undefined →
      callToolFull b "get_issue_comments" args
        = ([errObj "Missing required argument: issueId"], [])) ∧
    (∀ (b : Backend) (args : Json) (f : String),
      f ∈ ["projectId", "summary", "issueTypeId", "priorityId"] →
      args.truthy = true → args.get f = .undefined →
      callToolFull b "create_issue" args
        = ([errObj "Missing required arguments for issue creation"], [])) ∧
    (∀ (b : Backend) (args : Json) (f : String),
      f ∈ ["issueId", "content"] →
      args.truthy = true → args.get f = .undefined →
      callToolFull b "create_issue_comment" args
        = ([errObj "Missing required arguments for comment creation"], [])) := by
  refine ⟨?_, ?_, ?_, ?_, ?_, ?_⟩
  · intro b args ht hf
    unfold callToolFull
    rw [ht]
    simp [dispatchTool, handleGetProjectDetails, hf, Json.truthy]
  · intro b args ht hf
    unfold callToolFull
    rw [ht]
    simp [dispatchTool, handleGetProjectIssues, hf, Json.truthy]
  · intro b args ht hf
    unfold callToolFull
    rw [ht]
    simp [dispatchTool, handleGetIssueDetails, hf, Json.truthy]
  · intro b args ht hf
    unfold callToolFull
    rw [ht]
    simp [dispatchTool, handleGetIssueComments, hf, Json.truthy]
  · intro b args f hmem ht hf
    simp only [List.mem_cons, List.mem_singleton, List.not_mem_nil,
      or_false] at hmem
    unfold callToolFull
    rw [ht]
    rcases hmem with h | h | h | h <;> subst h <;>
      simp [dispatchTool, handleCreateIssue, hf, Json.truthy]
  · intro b args f hmem ht hf
    simp only [List.mem_cons, List.mem_singleton, List.not_mem_nil,
      or_false] at hmem
    unfold callToolFull
    rw [ht]
    rcases hmem with h | h <;> subst h <;>
      simp [dispatchTool, handleCreateIssueComment, hf, Json.truthy]

/-- Witness for C3 (amended): `get_project_details` with empty arguments, and
`create_issue` with exactly `summary` missing. -/
theorem C3_missing_field_soft_error_witness :
    ((Json.obj []).truthy = true ∧
     (Json.obj []).get "projectIdOrKey" = .undefined ∧
     callToolFull emptyBackend "get_project_details" (.obj [])
       = ([errObj "Missing required argument: projectIdOrKey"], [])) ∧
    ("summary" ∈ ["projectId", "summary", "issueTypeId", "priorityId"] ∧
     c3Args.truthy = true ∧ c3Args.get "summary" = .undefined ∧
     callToolFull emptyBackend "create_issue" c3Args
       = ([errObj "Missing required arguments for issue creation"], [])) :=
  ⟨⟨rfl, rfl, C3_missing_field_soft_error.1 emptyBackend (.obj []) rfl rfl⟩,
   ⟨by decide, rfl, rfl,
    C3_missing_field_soft_error.2.2.2.2.1 emptyBackend c3Args "summary"
      (by decide) rfl rfl⟩⟩







/-- **C4, counterexample.**  In the `backlog:///issue/5/comments` payload the
first comment's `_links.self` is `backlog:///issue/5/comment/12`, but reading
that URI fails with `MethodNotFound`: the router has no `comment` route, so a
comment's self link is not a URI that `read` accepts, refuting the claim for
comment entities. -/
theorem C4_cex_comment_self_link_not_readable :
    ((((okJson (readResource c4Backend "backlog:///issue/5/comments")).get
        "comments").item 0).get "_links").get "self"
      = .str "backlog:///issue/5/comment/12" ∧
    readResource c4Backend "backlog:///issue/5/comment/12"
      = .error ⟨.methodNotFound,
          "Resource backlog:///issue/5/comment/12 not found"⟩ :=
  ⟨rfl, rfl⟩

/-- **C4, amended.**  Project and issue `_links.self` URIs do re-fetch the
entity they are attached to: for a slash-free id whose fetch returns a record
`{...fs}` carrying that id, `read` of the self URI succeeds with exactly that
record (plus its links), and the payload's own `_links.self` equals the URI
that was read — so reading the self link again re-fetches the same entity.
Comment self links, by contrast, are never readable: any
`backlog:///issue/<id>/comment/<cid>` URI fails with `MethodNotFound`. -/
theorem C4_self_links :
    (∀ (b : Backend) (s : String) (fs : List (String × Json)),
      '/' ∉ s.data →
      b.getIssue (.str s) = .ok (.obj fs) →
      ((Json.obj fs).get "id").render = s →
      readResource b ("backlog:///issue/" ++ s)
        = .ok (.obj (objSet fs "_links" (issueLinksJson (.obj fs)))) ∧
      (issueLinksJson (.obj fs)).get "self"
        = .str ("backlog:///issue/" ++ s)) ∧
    (∀ (b : Backend) (s : String) (fs : List (String × Json)),
      '/' ∉ s.data → s ≠ "" →
      b.getProject (.str s) = .ok (.obj fs) →
      ((Json.obj fs).get "id").render = s →
      readResource b ("backlog:///project/" ++ s)
        = .ok (.obj (objSet fs "_links"
            (projectLinksJson ((Json.obj fs).get "id")))) ∧
      (projectLinksJson ((Json.obj fs).get "id")).get "self"
        = .str ("backlog:///project/" ++ s)) ∧
    (∀ (b : Backend) (s c : String), '/' ∉ s.data →
      readResource b ("backlog:///issue/" ++ s ++ "/comment/" ++ c)
        = .error ⟨.methodNotFound,
            "Resource " ++ ("backlog:///issue/" ++ s ++ "/comment/" ++ c)
              ++ " not found"⟩) := by
  refine ⟨?_, ?_, ?_⟩
  · intro b s fs hs hb hid
    constructor
    · unfold readResource
      rw [uriSegs_issue s hs]
      simp [readSegs, liftB, hb, Json.fields]
    · rw [show (issueLinksJson (.obj fs)).get "self"
            = .str ("backlog:///issue/" ++ ((Json.obj fs).get "id").render)
          from rfl, hid]
  · intro b s fs hs hne hb hid
    constructor
    · unfold readResource
      rw [uriSegs_project s hs]
      simp [readSegs, liftB, hb, hne, Json.fields]
    · rw [show (projectLinksJson ((Json.obj fs).get "id")).get "self"
            = .str ("backlog:///project/" ++ ((Json.obj fs).get "id").render)
          from rfl, hid]
  · intro b s c hs
    unfold readResource
    rw [uriSegs_comment s c hs]
    simp [readSegs, pure, Except.pure]





/-- Witness for C4 (amended): the issue self link round-trips at id `42`, and
the comment self link `backlog:///issue/5/comment/12` is rejected. -/
theorem C4_self_links_witness :
    ('/' ∉ "42".data ∧
     c4wBackend.getIssue (.str "42") = .ok (.obj c4IssueFields) ∧
     ((Json.obj c4IssueFields).get "id").render = "42" ∧
     (readResource c4wBackend ("backlog:///issue/" ++ "42")
        = .ok (.obj (objSet c4IssueFields "_links"
            (issueLinksJson (.obj c4IssueFields)))) ∧
      (issueLinksJson (.obj c4IssueFields)).get "self"
        = .str ("backlog:///issue/" ++ "42"))) ∧
    ('/' ∉ "5".data ∧
     readResource c4wBackend ("backlog:///issue/" ++ "5" ++ "/comment/" ++ "12")
       = .error ⟨.methodNotFound,
           "Resource " ++ ("backlog:///issue/" ++ "5" ++ "/comment/" ++ "12")
             ++ " not found"⟩) :=
  ⟨⟨by decide, rfl, rfl,
    C4_self_links.1 c4wBackend "42" c4IssueFields (by decide) rfl rfl⟩,
   ⟨by decide, C4_self_links.2.2 c4wBackend "5" "12" (by decide)⟩⟩

/-- **C5.**  When the issue-list operation is called with a (truthy, i.e.
applied) project-id filter, the filter is encoded as the multi-value query
parameter `projectId[]=<id>`, and no scalar `projectId` parameter ever
appears in the query. -/
theorem C5_issue_filter_multi_value (c : BacklogClient.Config) (p : JsNum)
    (hp : p.truthy = true) :
    (BacklogClient.getIssuesRequest c (some p)).query
      = [("apiKey", c.apiKey), ("projectId[]", p.render)] ∧
    ∀ v, ("projectId", v) ∉ (BacklogClient.getIssuesRequest c (some p)).query := by
  constructor
  · simp [BacklogClient.getIssuesRequest, BacklogClient.request, hp]
  · intro v
    simp [BacklogClient.getIssuesRequest, BacklogClient.request, hp]

/-- Witness for C5 at project id 7. -/
theorem C5_issue_filter_multi_value_witness :
    (JsNum.int 7).truthy = true ∧
    (BacklogClient.getIssuesRequest ⟨"KEY", "space"⟩ (some (.int 7))).query
      = [("apiKey", "KEY"), ("projectId[]", (JsNum.int 7).render)] ∧
    ("projectId", "7")
      ∉ (BacklogClient.getIssuesRequest ⟨"KEY", "space"⟩ (some (.int 7))).query := by
  have h := C5_issue_filter_multi_value ⟨"KEY", "space"⟩ (.int 7) rfl
  exact ⟨rfl, h.1, h.2 "7"⟩

/-- **C6.**  Both state-changing client operations are HTTP POSTs whose
payload travels in the request body while the API-key credential is the sole
query parameter; the create-comment operation (modelled from the spec, being
absent from the client source though called by the `create_issue_comment`
handler) posts to `/issues/{issueId}/comments`. -/
theorem C6_state_changing_posts (c : BacklogClient.Config) (params : Json)
    (issueId : JsNum) (content : String) :
    (BacklogClient.createIssueRequest c params).method = .post ∧
    (BacklogClient.createIssueRequest c params).body = some params ∧
    (BacklogClient.createIssueRequest c params).query = [("apiKey", c.apiKey)] ∧
    (BacklogClient.createCommentRequest c issueId content).method = .post ∧
    (BacklogClient.createCommentRequest c issueId content).body
      = some (.obj [("content", .str content)]) ∧
    (BacklogClient.createCommentRequest c issueId content).query
      = [("apiKey", c.apiKey)] ∧
    (BacklogClient.createCommentRequest c issueId content).url
      = BacklogClient.baseUrl c ++ ("/issues/" ++ issueId.render ++ "/comments") :=
  ⟨rfl, rfl, rfl, rfl, rfl, rfl, rfl⟩









/-- **C7, counterexample.**  Against fixed backend data with two projects,
the only two fetch-resolution orders (`[0, 1]` and `[1, 0]`) produce
*identical* message sequences — with the matched issues in project-list
order — refuting the claimed existence of two runs over the same data whose
message sequences order the issues differently: `Promise.all` stores each
result at its own index, so resolution order never reaches the output. -/
theorem C7_cex_order_independent :
    searchMcpMessages c7Projects c7IssuesOf [1, 0]
      = searchMcpMessages c7Projects c7IssuesOf [0, 1] ∧
    searchMcpMessages c7Projects c7IssuesOf [1, 0]
      = [searchIntroMessage, issueResourceMessage c7Issue1,
         issueResourceMessage c7Issue2, searchOutroMessage] :=
  ⟨rfl, rfl⟩

/-- **C7, amended.**  The order of the embedded issue resources *is* a
deterministic function of the fetched data: for every completion order of the
concurrent fetches (any permutation of the task indices), the message
sequence equals the canonical one — matched issues grouped by project in
project-list order, each group in backend order. -/
theorem C7_deterministic_order (projects : List BacklogProject)
    (issuesOf : Int → List BacklogIssue) (order : List Nat)
    (h : order.Perm (List.range projects.length)) :
    searchMcpMessages projects issuesOf order
      = [searchIntroMessage]
        ++ ((projects.map (fun p => (issuesOf p.id).filter matchesMcp)).flatten).map
             issueResourceMessage
        ++ [searchOutroMessage] := by
  show ([searchIntroMessage]
    ++ ((promiseAll [] (projects.map (fun p => (issuesOf p.id).filter matchesMcp))
          order).flatten).map issueResourceMessage
    ++ [searchOutroMessage]) = _
  have h' : order.Perm (List.range
      (projects.map (fun p => (issuesOf p.id).filter matchesMcp)).length) := by
    rwa [List.length_map]
  rw [promiseAll_perm _ _ _ h']

/-- Witness for C7 (amended) at the fixture data with the reversed completion
order. -/
theorem C7_deterministic_order_witness :
    ([1, 0] : List Nat).Perm (List.range c7Projects.length) ∧
    searchMcpMessages c7Projects c7IssuesOf [1, 0]
      = [searchIntroMessage]
        ++ ((c7Projects.map (fun p => (c7IssuesOf p.id).filter matchesMcp)).flatten).map
             issueResourceMessage
        ++ [searchOutroMessage] :=
  ⟨by decide, C7_deterministic_order c7Projects c7IssuesOf [1, 0] (by decide)⟩

/-- **C8.**  Reading a URI whose first path segment is `project` with no
second segment fails with the typed `InvalidRequest` error
`Project ID is required`, which the surrounding catch re-throws unchanged
(it reaches the host as `InvalidRequest`, not re-wrapped as
`InternalError`) — for every backend, no backend call being involved. -/
theorem C8_project_without_id_invalid_request (b : Backend) :
    readResource b "backlog:///project"
      = .error ⟨.invalidRequest, "Project ID is required"⟩ := rfl

/-- **C9.**  Required-field validation tests JS falsiness, not presence: an
invocation whose required field is present but `0` (`issueId`, `projectId`)
or `""` (`content`, `summary`) is rejected with the same soft
`Missing required ...` error as when the field is absent, for every backend
and for arbitrary values of the other fields. -/
theorem C9_falsy_required_fields (b : Backend) (c q : Json) :
    (callToolFull b "create_issue_comment"
        (.obj [("issueId", .num (.int 0)), ("content", c)])
      = callToolFull b "create_issue_comment" (.obj [("content", c)])) ∧
    (callToolFull b "create_issue_comment"
        (.obj [("issueId", .num (.int 0)), ("content", c)])
      = ([errObj "Missing required arguments for comment creation"], [])) ∧
    (callToolFull b "create_issue_comment"
        (.obj [("issueId", q), ("content", .str "")])
      = callToolFull b "create_issue_comment" (.obj [("issueId", q)])) ∧
    (callToolFull b "create_issue_comment"
        (.obj [("issueId", q), ("content", .str "")])
      = ([errObj "Missing required arguments for comment creation"], [])) ∧
    (callToolFull b "get_issue_comments" (.obj [("issueId", .num (.int 0))])
      = callToolFull b "get_issue_comments" (.obj [])) ∧
    (callToolFull b "get_issue_comments" (.obj [("issueId", .num (.int 0))])
      = ([errObj "Missing required argument: issueId"], [])) ∧
    (callToolFull b "get_project_issues" (.obj [("projectId", .num (.int 0))])
      = ([errObj "Missing required argument: projectId"], [])) ∧
    (callToolFull b "create_issue"
        (.obj [("projectId", q), ("summary", .str ""), ("issueTypeId", q),
               ("priorityId", q)])
      = callToolFull b "create_issue"
          (.obj [("projectId", q), ("issueTypeId", q), ("priorityId", q)])) ∧
    (callToolFull b "create_issue"
        (.obj [("projectId", q), ("summary", .str ""), ("issueTypeId", q),
               ("priorityId", q)])
      = ([errObj "Missing required arguments for issue creation"], [])) := by
  refine ⟨?_, ?_, ?_, ?_, ?_, ?_, ?_, ?_, ?_⟩ <;>
    simp [callToolFull, dispatchTool, handleCreateIssueComment,
      handleGetIssueComments, handleGetProjectIssues, handleCreateIssue,
      Json.get, Json.truthy, JsNum.truthy, List.find?]

/-- **C10.**  `getIssues(0)`, `getIssues(NaN)` (as produced by `parseInt` on
a non-numeric path segment) and `getIssues()` all issue exactly the same
unfiltered request: a falsy project id drops the `projectId[]` filter
entirely, so the query carries only the credential and the call returns
issues from all projects. -/
theorem C10_falsy_project_id_unfiltered (c : BacklogClient.Config) :
    BacklogClient.getIssuesRequest c (some (.int 0))
      = BacklogClient.getIssuesRequest c none ∧
    BacklogClient.getIssuesRequest c (some .nan)
      = BacklogClient.getIssuesRequest c none ∧
    jsParseInt "abc" = .nan ∧
    BacklogClient.getIssuesRequest c (some (jsParseInt "abc"))
      = BacklogClient.getIssuesRequest c none ∧
    (BacklogClient.getIssuesRequest c none).query = [("apiKey", c.apiKey)] :=
  ⟨rfl, rfl, rfl, rfl, rfl⟩
